import Mathlib

/-!
Shallow embedding of the Budget Analysis Engine of the Budget-App
repository (src/src/lib/calculations.ts and the analysis module that
follows it in the same file), together with proofs about the claims of
the specification.

Modelling conventions:
* JavaScript numbers are modelled as exact rationals (`Rat`).  All the
  properties under study are control-flow / exact-zero properties that
  are insensitive to float rounding; divisions in the source are guarded
  before they happen, so no NaN/Infinity value can arise in the model.
* The runtime view of `TransactionType` is an arbitrary `String`
  (TypeScript erases the union type `'income' | 'expense'` at runtime,
  and the specification explicitly discusses transactions with an
  unrecognized `type`).
* The JavaScript `Map<string, number>` used by `groupByCategory` is an
  insertion-ordered association list: `set` of a present key updates it
  in place, `set` of an absent key appends, `get(k) || 0` is a lookup
  with default `0`.
* `Number.prototype.toFixed` is modelled by exact rational rounding
  (round half away from zero towards the larger candidate, as in the
  ECMAScript definition); the claims never depend on the digits
  produced, only on the surrounding string structure.
-/

namespace BudgetApp

/-- `Transaction` record of `src/src/types.ts`; `type` is kept as a
runtime string (see module comment). -/
structure Transaction where
  id : String
  type : String
  date : String
  periodTag : String
  amount : Rat
  description : String
  category : String
deriving Repr, DecidableEq

/-- `Totals` record of `src/src/types.ts`. -/
structure Totals where
  incomeTotal : Rat
  expenseTotal : Rat
deriving Repr, DecidableEq

/-- Modelled from the spec: the `BudgetGoal` interface declaration is not
among the provided sources (only its importers are).  Fields follow §3 of
the spec and the usage in `calculations.ts`: a `(category, month)` key and
a `monthlyLimit` ceiling. -/
structure BudgetGoal where
  category : String
  monthlyLimit : Rat
  month : String
deriving Repr, DecidableEq

/-- Status component of `BudgetProgress`:
`'safe' | 'warning' | 'exceeded'`. -/
inductive GoalStatus where
  | safe
  | warning
  | exceeded
deriving Repr, DecidableEq

/-- `BudgetProgress` shape, as constructed by `calculateBudgetProgress`. -/
structure BudgetProgress where
  category : String
  spent : Rat
  limit : Rat
  percentage : Rat
  remaining : Rat
  status : GoalStatus
deriving Repr, DecidableEq

/-- `CategorySpending` record of `src/src/types.ts`. -/
structure CategorySpending where
  category : String
  amount : Rat
  percentage : Rat
deriving Repr, DecidableEq

/-- The `Omit<BudgetAnalysis, 'recommendations' | 'insights' | 'alerts'>`
shape returned by `analyzeBudget`. -/
structure BudgetAnalysisBase where
  totalIncome : Rat
  totalExpenses : Rat
  netSavings : Rat
  savingsRate : Rat
  categoryBreakdown : List CategorySpending
deriving Repr, DecidableEq

/-- `BudgetAnalysis` record of `src/src/types.ts`. -/
structure BudgetAnalysis where
  totalIncome : Rat
  totalExpenses : Rat
  netSavings : Rat
  savingsRate : Rat
  categoryBreakdown : List CategorySpending
  recommendations : List String
  insights : List String
  alerts : List String
deriving Repr, DecidableEq

/-- The `reduce` callback of `computeTotals`: an `'income'` transaction
adds to `incomeTotal`, every other transaction falls into the `else`
branch and adds to `expenseTotal`. -/
def totalsStep (acc : Totals) (t : Transaction) : Totals :=
  if t.type == "income" then { acc with incomeTotal := acc.incomeTotal + t.amount }
  else { acc with expenseTotal := acc.expenseTotal + t.amount }

/-- `computeTotals` (calculations.ts lines 3-12): a single `reduce` over
the transactions from the all-zero accumulator. -/
def computeTotals (transactions : List Transaction) : Totals :=
  transactions.foldl totalsStep { incomeTotal := 0, expenseTotal := 0 }

/-- `map.set(k, (map.get(k) || 0) + a)` on an insertion-ordered map: a
present key is updated in place, an absent key is appended at the end. -/
def addToCategory : List (String × Rat) → String → Rat → List (String × Rat)
  | [], c, a => [(c, a)]
  | (k, v) :: rest, c, a =>
      if k = c then (k, v + a) :: rest else (k, v) :: addToCategory rest c a

/-- `map.get(k) || 0`: lookup in the insertion-ordered map, `0` when the
key is absent (and `0 || 0` is `0` when it is present with value `0`). -/
def lookupCat : List (String × Rat) → String → Rat
  | [], _ => 0
  | (k, v) :: rest, c => if k = c then v else lookupCat rest c

/-- The key sequence of the insertion-ordered map. -/
def catKeys (m : List (String × Rat)) : List String :=
  m.map Prod.fst

/-- The `{category, total}` entries returned by `groupByCategory`. -/
structure CategoryTotal where
  category : String
  total : Rat
deriving Repr, DecidableEq

/-- One iteration of the `for`-loop of `groupByCategory`: a transaction
of another type is skipped (`continue`), the rest are accumulated into
the map. -/
def groupStep (type : String) (m : List (String × Rat)) (t : Transaction) :
    List (String × Rat) :=
  if t.type == type then addToCategory m t.category t.amount else m

/-- The `for`-loop of `groupByCategory`, from the empty map. -/
def groupFold (transactions : List Transaction) (type : String) : List (String × Rat) :=
  transactions.foldl (groupStep type) []

/-- `groupByCategory` (calculations.ts lines 14-24): filters to the
requested type, accumulates per exact category string into an
insertion-ordered map, emits its entries. -/
def groupByCategory (transactions : List Transaction) (type : String) : List CategoryTotal :=
  (groupFold transactions type).map (fun p => { category := p.1, total := p.2 })

/-- The per-goal arrow function of `calculateBudgetProgress`
(calculations.ts lines 79-98): spending lookup with default `0`, guarded
percentage, remaining, and the `exceeded` / `warning` / `safe`
cascade. -/
def progressFor (spendingMap : List (String × Rat)) (goal : BudgetGoal) : BudgetProgress :=
  let spent := lookupCat spendingMap goal.category
  let percentage := if goal.monthlyLimit > 0 then spent / goal.monthlyLimit * 100 else 0
  let remaining := goal.monthlyLimit - spent
  let status :=
    if spent > goal.monthlyLimit then GoalStatus.exceeded
    else if percentage ≥ 80 then GoalStatus.warning
    else GoalStatus.safe
  { category := goal.category, spent := spent, limit := goal.monthlyLimit,
    percentage := percentage, remaining := remaining, status := status }

/-- `calculateBudgetProgress` (calculations.ts lines 60-100). -/
def calculateBudgetProgress (transactions : List Transaction) (goals : List BudgetGoal)
    (currentMonth : String) : List BudgetProgress :=
  let monthExpenses := transactions.filter
    (fun t => t.type == "expense" && t.date.take 7 == currentMonth)
  let categorySpending := groupByCategory monthExpenses "expense"
  let spendingMap := categorySpending.map (fun c => (c.category, c.total))
  (goals.filter (fun g => g.month == currentMonth)).map (progressFor spendingMap)

/-- `analyzeBudget` (analysis module lines 115-138): totals, net savings,
guarded savings rate, and the expense category breakdown with guarded
percentages.  `startingBalance` is accepted but not used in the body. -/
def analyzeBudget (startingBalance : Rat) (transactions : List Transaction) :
    BudgetAnalysisBase :=
  let totals := computeTotals transactions
  let netSavings := totals.incomeTotal - totals.expenseTotal
  let savingsRate := if totals.incomeTotal > 0 then netSavings / totals.incomeTotal * 100 else 0
  let expenseCategories := groupByCategory transactions "expense"
  { totalIncome := totals.incomeTotal
    totalExpenses := totals.expenseTotal
    netSavings := netSavings
    savingsRate := savingsRate
    categoryBreakdown := expenseCategories.map (fun cat =>
      { category := cat.category, amount := cat.total,
        percentage :=
          if totals.expenseTotal > 0 then cat.total / totals.expenseTotal * 100 else 0 }) }

/-- Pad a decimal digit string with leading zeros up to `len` digits. -/
def padZeros (s : String) (len : Nat) : String :=
  String.mk (List.replicate (len - s.length) '0') ++ s

/-- `Number.prototype.toFixed(digits)` modelled on exact rationals: the
integer closest to `x * 10^digits` (ties towards the larger integer, as
in the ECMAScript definition), rendered with `digits` decimals.  The
`-0.0` corner of float formatting is not modelled; no claim depends on
the digits produced. -/
def jsToFixed (x : Rat) (digits : Nat) : String :=
  let n : Int := ⌊x * (10 ^ digits : Nat) + 1 / 2⌋
  let m : Nat := n.natAbs
  let whole : Nat := m / 10 ^ digits
  let frac : Nat := m % 10 ^ digits
  let sign := if n < 0 then "-" else ""
  if digits = 0 then sign ++ toString whole
  else sign ++ toString whole ++ "." ++ padZeros (toString frac) digits

/-- `pat` is an initial segment of `s` (character lists). -/
def listIsInit : List Char → List Char → Bool
  | [], _ => true
  | _ :: _, [] => false
  | p :: ps, c :: cs => p == c && listIsInit ps cs

/-- `pat` occurs as a contiguous sublist of `s`. -/
def listHasSub (pat : List Char) : List Char → Bool
  | [] => pat.isEmpty
  | c :: rest => listIsInit pat (c :: rest) || listHasSub pat rest

/-- `String.prototype.includes(pat)`. -/
def strContains (s pat : String) : Bool :=
  listHasSub pat.data s.data

/-- `String.prototype.toLowerCase()` (ASCII range, which is all the
recommendation rules compare against). -/
def lowerStr (s : String) : String :=
  String.mk (s.data.map Char.toLower)

/-- First character of a string, used to tell the distinct message
families of the insight generator apart. -/
def firstChar (s : String) : Option Char :=
  s.data.head?

/-- The `< 0` savings-tier message of `generateRecommendations`. -/
def overspendMsg : String :=
  "⚠️ You are spending more than you earn. Reduce expenses or increase income urgently."

/-- The `< 10` savings-tier message of `generateRecommendations`. -/
def saveMoreMsg : String :=
  "💡 Your savings rate is below 10%. Try to save at least 10-20% of your income."

/-- The `>= 20` savings-tier message of `generateRecommendations`. -/
def praiseMsg : String :=
  "✅ Great job! You are saving 20% or more of your income."

/-- The housing-cost warning of `generateRecommendations`. -/
def housingMsg (p : Rat) : String :=
  "🏠 Housing costs (" ++ jsToFixed p 1 ++ "%) exceed the recommended 30%. Consider housing alternatives."

/-- The food-spending warning of `generateRecommendations`. -/
def foodMsg (p : Rat) : String :=
  "🍽️ Food spending (" ++ jsToFixed p 1 ++ "%) is high. Meal planning could help reduce costs."

/-- The diversification warning of `generateRecommendations`. -/
def diversifyMsg (cat : String) (p : Rat) : String :=
  "📊 " ++ cat ++ " represents " ++ jsToFixed p 1 ++ "% of spending. Consider diversifying expenses."

/-- Savings-rate block of `generateRecommendations` (lines 149-155): the
`if / else if / else if` chain over `analysis.savingsRate`. -/
def savingsRateRecs (a : BudgetAnalysisBase) : List String :=
  if a.savingsRate < 0 then [overspendMsg]
  else if a.savingsRate < 10 then [saveMoreMsg]
  else if a.savingsRate ≥ 20 then [praiseMsg]
  else []

/-- Housing block of `generateRecommendations` (lines 158-163):
`.find()` of the first category whose lower-cased name contains
`housing` or `rent`, warned about when its percentage exceeds 35. -/
def housingRecs (a : BudgetAnalysisBase) : List String :=
  match a.categoryBreakdown.find? (fun c =>
      strContains (lowerStr c.category) "housing" || strContains (lowerStr c.category) "rent") with
  | some c => if c.percentage > 35 then [housingMsg c.percentage] else []
  | none => []

/-- Food block of `generateRecommendations` (lines 165-170). -/
def foodRecs (a : BudgetAnalysisBase) : List String :=
  match a.categoryBreakdown.find? (fun c =>
      strContains (lowerStr c.category) "food" || strContains (lowerStr c.category) "groceries") with
  | some c => if c.percentage > 15 then [foodMsg c.percentage] else []
  | none => []

/-- Diversification block of `generateRecommendations` (lines 173-176):
`categoryBreakdown[0]`, warned about when it exceeds 50%. -/
def diversifyRecs (a : BudgetAnalysisBase) : List String :=
  match a.categoryBreakdown.head? with
  | some c => if c.percentage > 50 then [diversifyMsg c.category c.percentage] else []
  | none => []

/-- `generateRecommendations` (analysis module lines 143-179): the four
push-blocks append their messages in this fixed order. -/
def generateRecommendations (a : BudgetAnalysisBase) : List String :=
  savingsRateRecs a ++ housingRecs a ++ foodRecs a ++ diversifyRecs a

/-- Income-vs-expenses line of `generateInsights`. -/
def incomeMsg (a : BudgetAnalysisBase) : String :=
  "📈 Monthly income: $" ++ jsToFixed a.totalIncome 2 ++ ", Expenses: $" ++ jsToFixed a.totalExpenses 2

/-- Net-savings line of `generateInsights`. -/
def savingsMsg (a : BudgetAnalysisBase) : String :=
  "💰 Net savings this month: $" ++ jsToFixed a.netSavings 2 ++ " (" ++ jsToFixed a.savingsRate 1 ++ "%)"

/-- Deficit line of `generateInsights`. -/
def deficitMsg (a : BudgetAnalysisBase) : String :=
  "⚠️ Deficit this month: $" ++ jsToFixed (abs a.netSavings) 2

/-- Top-spending-categories line of `generateInsights`, built from the
listed entries in their given order. -/
def topCatsMsg (cats : List CategorySpending) : String :=
  "📊 Top spending categories: " ++
    String.intercalate ", " (cats.map (fun c => c.category ++ " (" ++ jsToFixed c.percentage 1 ++ "%)"))

/-- `generateInsights` (analysis module lines 184-208): income summary
when `totalIncome > 0`, savings-or-deficit line on the sign of
`netSavings`, and the `slice(0, 3)` top-categories line when the
breakdown is non-empty. -/
def generateInsights (a : BudgetAnalysisBase) : List String :=
  (if a.totalIncome > 0 then [incomeMsg a] else []) ++
  (if a.netSavings > 0 then [savingsMsg a]
   else if a.netSavings < 0 then [deficitMsg a] else []) ++
  (if 0 < a.categoryBreakdown.length then [topCatsMsg (a.categoryBreakdown.take 3)] else [])

/-- Large-transactions alert line of `generateAlerts`. -/
def largeTxMsg (count : Nat) (threshold : Rat) : String :=
  "🔔 " ++ toString count ++ " large transaction(s) detected (>" ++ jsToFixed threshold 2 ++ ")"

/-- Negative-balance alert line of `generateAlerts`. -/
def negBalanceMsg : String :=
  "⚠️ Warning: Spending exceeds income this period"

/-- Category-consolidation alert line of `generateAlerts`. -/
def consolidateMsg : String :=
  "📝 Consider consolidating categories - you have many expense categories"

/-- `generateAlerts` (analysis module lines 213-240). -/
def generateAlerts (a : BudgetAnalysisBase) (transactions : List Transaction) : List String :=
  (if a.totalExpenses > 0 then
    let large := transactions.filter
      (fun t => t.type == "expense" && t.amount > a.totalExpenses * 0.2)
    if 0 < large.length then [largeTxMsg large.length (a.totalExpenses * 0.2)] else []
   else []) ++
  (if a.netSavings < 0 then [negBalanceMsg] else []) ++
  (if 10 < a.categoryBreakdown.length then [consolidateMsg] else [])

/-- `performFullAnalysis` (analysis module lines 245-257): the base
analysis spread together with the three derived lists. -/
def performFullAnalysis (startingBalance : Rat) (transactions : List Transaction) :
    BudgetAnalysis :=
  let base := analyzeBudget startingBalance transactions
  { totalIncome := base.totalIncome
    totalExpenses := base.totalExpenses
    netSavings := base.netSavings
    savingsRate := base.savingsRate
    categoryBreakdown := base.categoryBreakdown
    recommendations := generateRecommendations base
    insights := generateInsights base
    alerts := generateAlerts base transactions }

/-- JSON string escaping for the two characters `JSON.stringify` must
always escape in category names (quotes and backslashes); control
characters do not occur in the data under study. -/
def jsonEscapeChar (c : Char) : String :=
  if c = '"' then "\\\"" else if c = '\\' then "\\\\" else Char.toString c

/-- Escape a string body for JSON. -/
def jsonEscape (s : String) : String :=
  String.join (s.data.map jsonEscapeChar)

/-- A JSON string literal. -/
def jsonStr (s : String) : String :=
  "\"" ++ jsonEscape s ++ "\""

/-- Serialization of a number inside the summary; numbers are exact
rationals in the model, rendered canonically. -/
def jsonNum (q : Rat) : String :=
  toString q

/-- One element of the `categories` array of the AI summary, as laid out
by `JSON.stringify(summary, null, 2)`. -/
def jsonCategoryEntry (c : CategorySpending) : String :=
  "    \x7b\n      \"category\": " ++ jsonStr c.category ++
  ",\n      \"amount\": " ++ jsonNum c.amount ++
  ",\n      \"percentage\": " ++ jsonNum c.percentage ++ "\n    \x7d"

/-- The `categories` array of the AI summary. -/
def jsonCategories (cs : List CategorySpending) : String :=
  if cs.isEmpty then "[]"
  else "[\n" ++ String.intercalate ",\n" (cs.map jsonCategoryEntry) ++ "\n  ]"

/-- `prepareBudgetDataForAI` (analysis module lines 262-283): runs the
full analysis and serializes the summary object — aggregate numbers, the
per-category name/amount/percentage projection, and the transaction
count.  `description` and `id` never reach the summary. -/
def prepareBudgetDataForAI (startingBalance : Rat) (transactions : List Transaction) :
    String :=
  let analysis := performFullAnalysis startingBalance transactions
  "\x7b\n  \"income\": " ++ jsonNum analysis.totalIncome ++
  ",\n  \"expenses\": " ++ jsonNum analysis.totalExpenses ++
  ",\n  \"savings\": " ++ jsonNum analysis.netSavings ++
  ",\n  \"savingsRate\": " ++ jsonNum analysis.savingsRate ++
  ",\n  \"categories\": " ++ jsonCategories analysis.categoryBreakdown ++
  ",\n  \"transactionCount\": " ++ toString transactions.length ++ "\n\x7d"

/-- Spec-side description (C9): the distinct categories of type-`type`
transactions in first-seen order. -/
def seenCats (transactions : List Transaction) (type : String) : List String :=
  transactions.foldl
    (fun ks t =>
      if t.type == type then (if t.category ∈ ks then ks else ks ++ [t.category]) else ks)
    []

/-- Spec-side description (C9): the sum of the amounts of the type-`type`
transactions in category `c`. -/
def catSum (transactions : List Transaction) (type c : String) : Rat :=
  ((transactions.filter (fun t => t.type == type && t.category == c)).map
    Transaction.amount).sum

/-- Spec-side description (C9): one entry per distinct category in
first-seen order, carrying the sum of that category's amounts. -/
def groupSpec (transactions : List Transaction) (type : String) : List CategoryTotal :=
  (seenCats transactions type).map (fun c => { category := c, total := catSum transactions type c })

/-- Spec-side description (C6): the sum of the amounts of the expense
transactions of the queried month (date prefixed by it) in category
`cat`. -/
def spentFor (transactions : List Transaction) (month cat : String) : Rat :=
  ((transactions.filter
      (fun t => t.type == "expense" && t.date.take 7 == month && t.category == cat)).map
    Transaction.amount).sum

/-- Recognizer for the three savings-rate tier messages (C7). -/
def isTierMsg (s : String) : Bool :=
  s == overspendMsg || s == saveMoreMsg || s == praiseMsg

/-- Closed form of the `computeTotals` fold from an arbitrary
accumulator. -/
theorem computeTotals_foldl_eq (ts : List Transaction) (acc : Totals) :
    ts.foldl totalsStep acc =
    { incomeTotal := acc.incomeTotal +
        ((ts.filter (fun t => t.type == "income")).map Transaction.amount).sum,
      expenseTotal := acc.expenseTotal +
        ((ts.filter (fun t => !(t.type == "income"))).map Transaction.amount).sum } := by
  induction ts generalizing acc with
  | nil => simp
  | cons t ts ih =>
    rw [List.foldl_cons, ih]
    by_cases h : t.type = "income"
    · simp [totalsStep, List.filter_cons, h, add_assoc]
    · simp [totalsStep, List.filter_cons, h, add_assoc]

/-- C1 (amended): `computeTotals` is a single pass over the list; a
transaction adds its amount to `incomeTotal` exactly when its `type` is
`"income"`, and every other transaction — including every unrecognized
type — adds its amount to `expenseTotal`; no error is raised. -/
theorem c1_computeTotals_else_branch (ts : List Transaction) :
    computeTotals ts =
      { incomeTotal := ((ts.filter (fun t => t.type == "income")).map Transaction.amount).sum,
        expenseTotal :=
          ((ts.filter (fun t => !(t.type == "income"))).map Transaction.amount).sum } := by
  simpa [computeTotals] using computeTotals_foldl_eq ts { incomeTotal := 0, expenseTotal := 0 }

/-- C1 counterexample: a transaction of the unrecognized type
`"transfer"` is not excluded from both totals — it contributes its full
amount to `expenseTotal`. -/
theorem c1_claim_counterexample :
    (computeTotals
        [{ id := "t1", type := "transfer", date := "2024-05-01", periodTag := "",
           amount := 7, description := "wire", category := "Misc" }]).expenseTotal = 7 ∧
    ("transfer" == "income") = false ∧ ("transfer" == "expense") = false ∧
    (7 : Rat) ≠ 0 := by
  refine ⟨?_, by decide, by decide, by norm_num⟩
  norm_num [computeTotals, totalsStep]
  decide

/-- Splitting a sum of amounts along a boolean predicate on the
transactions. -/
theorem sum_map_filter_split (ts : List Transaction) (p : Transaction → Bool) :
    ((ts.filter p).map Transaction.amount).sum +
      ((ts.filter (fun t => !(p t))).map Transaction.amount).sum =
    (ts.map Transaction.amount).sum := by
  induction ts with
  | nil => simp
  | cons t ts ih =>
    cases h : p t <;> simp [List.filter_cons, h, ← ih] <;> ring

/-- C8 (amended): with non-negative amounts both totals are
non-negative, and `incomeTotal + expenseTotal` is the sum of the amounts
of all transactions — every transaction is included, because the `else`
branch books every non-`"income"` type as an expense. -/
theorem c8_nonneg_totals_partition (ts : List Transaction)
    (h : ∀ t ∈ ts, 0 ≤ t.amount) :
    0 ≤ (computeTotals ts).incomeTotal ∧ 0 ≤ (computeTotals ts).expenseTotal ∧
    (computeTotals ts).incomeTotal + (computeTotals ts).expenseTotal =
      (ts.map Transaction.amount).sum := by
  have hc : computeTotals ts =
      { incomeTotal := ((ts.filter (fun t => t.type == "income")).map Transaction.amount).sum,
        expenseTotal :=
          ((ts.filter (fun t => !(t.type == "income"))).map Transaction.amount).sum } := by
    simpa using computeTotals_foldl_eq ts { incomeTotal := 0, expenseTotal := 0 }
  simp only [hc]
  refine ⟨List.sum_nonneg ?_, List.sum_nonneg ?_, sum_map_filter_split ts _⟩
  · intro x hx
    obtain ⟨t, ht, rfl⟩ := List.mem_map.mp hx
    exact h t (List.mem_of_mem_filter ht)
  · intro x hx
    obtain ⟨t, ht, rfl⟩ := List.mem_map.mp hx
    exact h t (List.mem_of_mem_filter ht)

/-- C8 counterexample: with a single non-negative transaction of the
unrecognized type `"refund"`, the two totals sum to `5`, while the sum of
the amounts of the transactions with a recognized type is `0`. -/
theorem c8_claim_counterexample :
    (0 : Rat) ≤ 5 ∧
    (computeTotals
        [{ id := "t2", type := "refund", date := "2024-06-01", periodTag := "",
           amount := 5, description := "r", category := "Misc" }]).incomeTotal +
      (computeTotals
        [{ id := "t2", type := "refund", date := "2024-06-01", periodTag := "",
           amount := 5, description := "r", category := "Misc" }]).expenseTotal = 5 ∧
    (([({ id := "t2", type := "refund", date := "2024-06-01", periodTag := "",
           amount := 5, description := "r", category := "Misc" } : Transaction)].filter
        (fun t => t.type == "income" || t.type == "expense")).map
      Transaction.amount).sum = 0 ∧
    (5 : Rat) ≠ 0 := by
  have hne : ("refund" : String) ≠ "income" := by decide
  refine ⟨by norm_num, ?_, ?_, by norm_num⟩
  · norm_num [computeTotals, totalsStep, hne]
  · simp [List.filter]

/-- C4: the `startingBalance` parameter is inert — `analyzeBudget` and
`performFullAnalysis` return identical results for any two starting
balances on the same transactions. -/
theorem c4_startingBalance_inert (b1 b2 : Rat) (ts : List Transaction) :
    analyzeBudget b1 ts = analyzeBudget b2 ts ∧
    performFullAnalysis b1 ts = performFullAnalysis b2 ts :=
  ⟨rfl, rfl⟩

/-- C2: `savingsRate` is `0` whenever `totalIncome` is `0`, every
breakdown percentage is `0` whenever `totalExpenses` is `0` (the guarded
divisions never run), and `analyzeBudget 0 []` is the all-zero
analysis. -/
theorem c2_division_guards (b : Rat) (ts : List Transaction) :
    ((analyzeBudget b ts).totalIncome = 0 → (analyzeBudget b ts).savingsRate = 0) ∧
    ((analyzeBudget b ts).totalExpenses = 0 →
      ∀ c ∈ (analyzeBudget b ts).categoryBreakdown, c.percentage = 0) ∧
    analyzeBudget 0 [] =
      { totalIncome := 0, totalExpenses := 0, netSavings := 0, savingsRate := 0,
        categoryBreakdown := [] } := by
  refine ⟨?_, ?_,
    by norm_num [analyzeBudget, computeTotals, groupByCategory, groupFold]⟩
  · intro h
    have h' : (computeTotals ts).incomeTotal = 0 := h
    show (if (computeTotals ts).incomeTotal > 0 then
        ((computeTotals ts).incomeTotal - (computeTotals ts).expenseTotal) /
          (computeTotals ts).incomeTotal * 100
      else 0) = 0
    rw [if_neg]
    rw [h']
    exact lt_irrefl 0
  · intro h c hc
    have h' : (computeTotals ts).expenseTotal = 0 := h
    have hb : (analyzeBudget b ts).categoryBreakdown =
        (groupByCategory ts "expense").map (fun cat =>
          { category := cat.category, amount := cat.total,
            percentage :=
              if (computeTotals ts).expenseTotal > 0 then
                cat.total / (computeTotals ts).expenseTotal * 100
              else 0 }) := rfl
    rw [hb] at hc
    obtain ⟨cat, _, rfl⟩ := List.mem_map.mp hc
    show (if (computeTotals ts).expenseTotal > 0 then
        cat.total / (computeTotals ts).expenseTotal * 100 else 0) = 0
    rw [if_neg]
    rw [h']
    exact lt_irrefl 0

/-- C2 witness: the guards are exercised at concrete inputs — an input
with zero income (a `"gift"` transaction, booked as expense) and an input
with a zero-amount expense whose breakdown entry has percentage `0`. -/
theorem c2_division_guards_witness :
    (analyzeBudget 0
        [{ id := "a", type := "gift", date := "2024-05-01", periodTag := "",
           amount := 3, description := "", category := "Misc" }]).savingsRate = 0 ∧
    ({ category := "Food", amount := 0, percentage := 0 } : CategorySpending).percentage
      = 0 := by
  have h2 := (c2_division_guards 0
    [{ id := "b", type := "expense", date := "2024-05-02", periodTag := "",
       amount := 0, description := "", category := "Food" }]).2.1
    (by norm_num [analyzeBudget, computeTotals, totalsStep])
  refine ⟨(c2_division_guards 0
    [{ id := "a", type := "gift", date := "2024-05-01", periodTag := "",
       amount := 3, description := "", category := "Misc" }]).1 ?_,
    h2 { category := "Food", amount := 0, percentage := 0 } ?_⟩
  · norm_num [analyzeBudget, computeTotals, totalsStep]
    decide
  · norm_num [analyzeBudget, computeTotals, totalsStep, groupByCategory, groupFold,
      groupStep, addToCategory]

/-- Characterization of the status cascade of `progressFor` for an
arbitrary spending map and goal. -/
theorem progressFor_classification (m : List (String × Rat)) (g : BudgetGoal) :
    (progressFor m g).remaining = (progressFor m g).limit - (progressFor m g).spent ∧
    ((progressFor m g).limit ≤ 0 → (progressFor m g).percentage = 0) ∧
    (0 < (progressFor m g).limit →
      (((progressFor m g).status = GoalStatus.exceeded ↔
          (progressFor m g).limit < (progressFor m g).spent) ∧
       ((progressFor m g).status = GoalStatus.warning ↔
          (progressFor m g).spent ≤ (progressFor m g).limit ∧
            80 ≤ (progressFor m g).percentage) ∧
       ((progressFor m g).status = GoalStatus.safe ↔
          (progressFor m g).spent ≤ (progressFor m g).limit ∧
            (progressFor m g).percentage < 80))) := by
  have hsp : (progressFor m g).spent = lookupCat m g.category := rfl
  have hli : (progressFor m g).limit = g.monthlyLimit := rfl
  have hpc : (progressFor m g).percentage =
      (if g.monthlyLimit > 0 then lookupCat m g.category / g.monthlyLimit * 100 else 0) := rfl
  have hst : (progressFor m g).status =
      (if lookupCat m g.category > g.monthlyLimit then GoalStatus.exceeded
       else if (if g.monthlyLimit > 0 then
           lookupCat m g.category / g.monthlyLimit * 100 else 0) ≥ 80 then
         GoalStatus.warning
       else GoalStatus.safe) := rfl
  refine ⟨rfl, ?_, ?_⟩
  · intro hL
    rw [hli] at hL
    rw [hpc, if_neg (not_lt.mpr hL)]
  · intro hL
    rw [hli] at hL
    rw [hst, hsp, hli, hpc]
    rcases lt_or_le g.monthlyLimit (lookupCat m g.category) with h1 | h1
    · rw [if_pos h1]
      exact ⟨by simp [h1], by simp [not_le.mpr h1], by simp [not_le.mpr h1]⟩
    · rw [if_neg (not_lt.mpr h1)]
      rcases le_or_lt 80 (if g.monthlyLimit > 0 then
          lookupCat m g.category / g.monthlyLimit * 100 else 0) with h2 | h2
      · rw [if_pos h2]
        exact ⟨by simp [not_lt.mpr h1], by simp [h1, h2], by simp [not_lt.mpr h2]⟩
      · rw [if_neg (not_le.mpr h2)]
        exact ⟨by simp [not_lt.mpr h1], by simp [not_le.mpr h2], by simp [h1, h2]⟩

/-- C3: every entry of `calculateBudgetProgress` has
`remaining = limit - spent` and `percentage = 0` when `limit ≤ 0`, and
for a positive limit exactly one status applies: `exceeded` iff
`spent > limit`; otherwise `warning` iff `percentage ≥ 80`; otherwise
`safe` — the exceeded check strictly beats the 80% warning check. -/
theorem c3_status_classification (ts : List Transaction) (goals : List BudgetGoal)
    (month : String) (e : BudgetProgress)
    (he : e ∈ calculateBudgetProgress ts goals month) :
    e.remaining = e.limit - e.spent ∧
    (e.limit ≤ 0 → e.percentage = 0) ∧
    (0 < e.limit →
      ((e.status = GoalStatus.exceeded ↔ e.limit < e.spent) ∧
       (e.status = GoalStatus.warning ↔ e.spent ≤ e.limit ∧ 80 ≤ e.percentage) ∧
       (e.status = GoalStatus.safe ↔ e.spent ≤ e.limit ∧ e.percentage < 80))) := by
  simp only [calculateBudgetProgress, List.mem_map] at he
  obtain ⟨g, _, rfl⟩ := he
  exact progressFor_classification _ g

/-- C3 witness: the spec's exceeded scenario — a 120 spend against a
100 limit is classified `exceeded` even though its percentage (120) is
also at least 80. -/
theorem c3_status_classification_witness :
    (({ category := "Food", spent := 120, limit := 100, percentage := 120,
        remaining := -20, status := GoalStatus.exceeded } : BudgetProgress).status =
          GoalStatus.exceeded ↔
        ({ category := "Food", spent := 120, limit := 100, percentage := 120,
           remaining := -20, status := GoalStatus.exceeded } : BudgetProgress).limit <
          ({ category := "Food", spent := 120, limit := 100, percentage := 120,
             remaining := -20, status := GoalStatus.exceeded } : BudgetProgress).spent) ∧
    (({ category := "Food", spent := 120, limit := 100, percentage := 120,
        remaining := -20, status := GoalStatus.exceeded } : BudgetProgress).status ≠
      GoalStatus.warning) := by
  have hmem : ({ category := "Food", spent := 120, limit := 100,
                 percentage := 120, remaining := -20,
                 status := GoalStatus.exceeded } : BudgetProgress) ∈
      calculateBudgetProgress
        [{ id := "x", type := "expense", date := "2024-05-03", periodTag := "",
           amount := 120, description := "", category := "Food" }]
        [{ category := "Food", monthlyLimit := 100, month := "2024-05" }] "2024-05" := by
    have hd : (("2024-05-03".take 7 == "2024-05") : Bool) = true := by decide
    norm_num [calculateBudgetProgress, progressFor, groupByCategory, groupFold,
      groupStep, addToCategory, lookupCat, List.filter, hd]
  have h := c3_status_classification _ _ _ _ hmem
  have h3 := h.2.2 (by norm_num)
  exact ⟨h3.1, fun hw => by
    have := (h3.2.1.mp hw).1
    norm_num at this⟩

/-- Looking up after a `set` of key `c`: unchanged except at `c`, which
gains `a`. -/
theorem lookupCat_addToCategory (m : List (String × Rat)) (c d : String) (a : Rat) :
    lookupCat (addToCategory m c a) d = lookupCat m d + (if d = c then a else 0) := by
  induction m with
  | nil =>
    by_cases h : c = d
    · subst h; simp [addToCategory, lookupCat]
    · have h' : ¬ d = c := fun hh => h hh.symm
      simp [addToCategory, lookupCat, h, h']
  | cons kv rest ih =>
    obtain ⟨k, v⟩ := kv
    by_cases hk : k = c
    · subst hk
      by_cases hd : k = d
      · subst hd; simp [addToCategory, lookupCat]
      · have hdc : ¬ d = k := fun hh => hd hh.symm
        simp [addToCategory, lookupCat, hd, hdc]
    · by_cases hd : k = d
      · subst hd
        have hdc : ¬ k = c := hk
        simp [addToCategory, lookupCat, hdc]
      · simp [addToCategory, lookupCat, hk, hd, ih]

/-- A `set` keeps the key order and appends an absent key at the end. -/
theorem catKeys_addToCategory (m : List (String × Rat)) (c : String) (a : Rat) :
    catKeys (addToCategory m c a) =
      if c ∈ catKeys m then catKeys m else catKeys m ++ [c] := by
  induction m with
  | nil => simp [addToCategory, catKeys]
  | cons kv rest ih =>
    obtain ⟨k, v⟩ := kv
    by_cases hk : k = c
    · subst hk; simp [addToCategory, catKeys]
    · have hck : ¬ c = k := fun hh => hk hh.symm
      have hstep : addToCategory ((k, v) :: rest) c a = (k, v) :: addToCategory rest c a := by
        simp [addToCategory, hk]
      rw [hstep,
        show catKeys ((k, v) :: addToCategory rest c a) =
          k :: catKeys (addToCategory rest c a) from rfl,
        ih, show catKeys ((k, v) :: rest) = k :: catKeys rest from rfl]
      by_cases hc : c ∈ catKeys rest
      · rw [if_pos hc, if_pos (List.mem_cons_of_mem _ hc)]
      · rw [if_neg hc, if_neg (by simp [List.mem_cons, hck, hc])]
        rfl

/-- A `set` preserves distinctness of the keys. -/
theorem nodup_catKeys_addToCategory (m : List (String × Rat)) (c : String) (a : Rat)
    (h : (catKeys m).Nodup) : (catKeys (addToCategory m c a)).Nodup := by
  rw [catKeys_addToCategory]
  split_ifs with hc
  · exact h
  · simp [List.nodup_append, h, hc]

/-- The lookup of the grouping fold equals the lookup of the initial map
plus the sum of that category's matching amounts. -/
theorem lookupCat_groupFold_aux (ts : List Transaction) (ty : String)
    (m : List (String × Rat)) (c : String) :
    lookupCat (ts.foldl (groupStep ty) m) c = lookupCat m c + catSum ts ty c := by
  induction ts generalizing m with
  | nil => simp [catSum]
  | cons t ts ih =>
    rw [List.foldl_cons, ih]
    by_cases hty : t.type = ty
    · by_cases hc : t.category = c
      · simp [groupStep, hty, catSum, List.filter_cons, hc, lookupCat_addToCategory]
        ring
      · have hc' : ¬ c = t.category := fun hh => hc hh.symm
        simp [groupStep, hty, catSum, List.filter_cons, hc, hc', lookupCat_addToCategory]
    · simp [groupStep, hty, catSum, List.filter_cons]

/-- The key sequence of the grouping fold is the first-seen fold over the
transactions. -/
theorem catKeys_groupFold_aux (ts : List Transaction) (ty : String)
    (m : List (String × Rat)) :
    catKeys (ts.foldl (groupStep ty) m) =
      ts.foldl
        (fun ks t =>
          if t.type == ty then (if t.category ∈ ks then ks else ks ++ [t.category]) else ks)
        (catKeys m) := by
  induction ts generalizing m with
  | nil => rfl
  | cons t ts ih =>
    rw [List.foldl_cons, List.foldl_cons, ih]
    congr 1
    by_cases hty : t.type = ty
    · simp [groupStep, hty, catKeys_addToCategory]
    · simp [groupStep, hty]

/-- The grouping fold keeps its keys distinct. -/
theorem nodup_catKeys_groupFold_aux (ts : List Transaction) (ty : String)
    (m : List (String × Rat)) (h : (catKeys m).Nodup) :
    (catKeys (ts.foldl (groupStep ty) m)).Nodup := by
  induction ts generalizing m with
  | nil => exact h
  | cons t ts ih =>
    rw [List.foldl_cons]
    apply ih
    by_cases hty : t.type = ty
    · simpa [groupStep, hty] using nodup_catKeys_addToCategory m t.category t.amount h
    · simpa [groupStep, hty] using h

/-- Two insertion-ordered maps with the same distinct keys and the same
lookups are equal. -/
theorem assoc_ext (m1 m2 : List (String × Rat)) (hk : catKeys m1 = catKeys m2)
    (hnd : (catKeys m1).Nodup)
    (hl : ∀ c ∈ catKeys m1, lookupCat m1 c = lookupCat m2 c) : m1 = m2 := by
  induction m1 generalizing m2 with
  | nil =>
    cases m2 with
    | nil => rfl
    | cons kv r => simp [catKeys] at hk
  | cons kv r1 ih =>
    obtain ⟨k, v⟩ := kv
    cases m2 with
    | nil => simp [catKeys] at hk
    | cons kv2 r2 =>
      obtain ⟨k2, v2⟩ := kv2
      simp only [catKeys, List.map_cons, List.cons.injEq] at hk
      obtain ⟨hk12, hkr⟩ := hk
      subst hk12
      simp only [catKeys, List.map_cons, List.nodup_cons] at hnd
      have hv : v = v2 := by
        have := hl k (List.mem_cons_self _ _)
        simpa [lookupCat] using this
      subst hv
      have hl' : ∀ c ∈ catKeys r1, lookupCat r1 c = lookupCat r2 c := by
        intro c hc
        have hck : ¬ (k = c) := fun hh => hnd.1 (hh ▸ hc)
        have := hl c (List.mem_cons_of_mem _ hc)
        simpa [lookupCat, hck] using this
      rw [ih r2 hkr hnd.2 hl']

/-- Lookup in a map built by pairing each key of a list with a value. -/
theorem lookupCat_map_pairs (cats : List String) (f : String → Rat) (d : String) :
    lookupCat (cats.map (fun c => (c, f c))) d = if d ∈ cats then f d else 0 := by
  induction cats with
  | nil => simp [lookupCat]
  | cons c cs ih =>
    by_cases h : c = d
    · subst h; simp [lookupCat, ih]
    · have h' : ¬ d = c := fun hh => h hh.symm
      by_cases h2 : d ∈ cs <;> simp [lookupCat, h, h', h2, ih]

/-- The grouping fold is exactly the first-seen-order pairing of each
distinct category with its amount sum. -/
theorem groupFold_eq_spec (ts : List Transaction) (ty : String) :
    groupFold ts ty = (seenCats ts ty).map (fun c => (c, catSum ts ty c)) := by
  have hkeys : catKeys (groupFold ts ty) = seenCats ts ty := by
    rw [groupFold, catKeys_groupFold_aux]
    rfl
  have hkeys2 : catKeys ((seenCats ts ty).map (fun c => (c, catSum ts ty c))) =
      seenCats ts ty := by
    simp only [catKeys, List.map_map]
    rw [show (Prod.fst ∘ fun c => (c, catSum ts ty c)) = id from rfl, List.map_id]
  apply assoc_ext
  · rw [hkeys, hkeys2]
  · rw [groupFold]
    exact nodup_catKeys_groupFold_aux ts ty [] (by simp [catKeys])
  · intro c hc
    rw [hkeys] at hc
    rw [groupFold, lookupCat_groupFold_aux, lookupCat_map_pairs, if_pos hc]
    simp [lookupCat]

/-- C9: `groupByCategory` has exactly one entry per distinct category of
the requested type, in first-seen order, each carrying the sum of that
category's amounts — and `analyzeBudget`'s `categoryBreakdown` is the
image of that list for type `"expense"` (so it inherits the same order
and grouping). -/
theorem c9_first_seen_grouping (ts : List Transaction) (ty : String) (b : Rat) :
    groupByCategory ts ty = groupSpec ts ty ∧
    ((groupByCategory ts ty).map CategoryTotal.category).Nodup ∧
    (analyzeBudget b ts).categoryBreakdown = (groupSpec ts "expense").map (fun e =>
      { category := e.category, amount := e.total,
        percentage :=
          if (computeTotals ts).expenseTotal > 0 then
            e.total / (computeTotals ts).expenseTotal * 100
          else 0 }) := by
  have hmain : ∀ ty' : String, groupByCategory ts ty' = groupSpec ts ty' := by
    intro ty'
    rw [groupByCategory, groupFold_eq_spec, groupSpec, List.map_map]
    rfl
  refine ⟨hmain ty, ?_, ?_⟩
  · have : (groupByCategory ts ty).map CategoryTotal.category = catKeys (groupFold ts ty) := by
      simp [groupByCategory, catKeys, List.map_map, Function.comp]
    rw [this, groupFold]
    exact nodup_catKeys_groupFold_aux ts ty [] (by simp [catKeys])
  · have hb : (analyzeBudget b ts).categoryBreakdown =
        (groupByCategory ts "expense").map (fun cat =>
          { category := cat.category, amount := cat.total,
            percentage :=
              if (computeTotals ts).expenseTotal > 0 then
                cat.total / (computeTotals ts).expenseTotal * 100
              else 0 }) := rfl
    rw [hb, hmain "expense"]

/-- Month-filtering then summing a category equals the one-pass sum over
the month-and-category filter. -/
theorem catSum_monthExpenses (ts : List Transaction) (month c : String) :
    catSum (ts.filter (fun t => t.type == "expense" && t.date.take 7 == month))
      "expense" c = spentFor ts month c := by
  induction ts with
  | nil => rfl
  | cons t ts ih =>
    simp only [spentFor, catSum, List.filter_filter] at ih ⊢
    by_cases h1 : t.type = "expense" <;> by_cases h2 : t.date.take 7 = month <;>
      by_cases h3 : t.category = c <;>
      simp [List.filter_cons, h1, h2, h3, ih]

/-- C6: `calculateBudgetProgress` returns exactly one entry per goal
whose `month` equals the queried month, in the goals' order — goals of
other months are silently dropped, so no matching goal yields `[]` — and
each entry's `spent` is the sum of the amounts of the `"expense"`
transactions whose date's first 7 characters equal the queried month and
whose category equals the goal's category exactly, `0` when there are
none. -/
theorem c6_one_entry_per_matching_goal (ts : List Transaction) (goals : List BudgetGoal)
    (month : String) :
    calculateBudgetProgress ts goals month =
      (goals.filter (fun g => g.month == month)).map (fun g =>
        { category := g.category,
          spent := spentFor ts month g.category,
          limit := g.monthlyLimit,
          percentage :=
            if g.monthlyLimit > 0 then spentFor ts month g.category / g.monthlyLimit * 100
            else 0,
          remaining := g.monthlyLimit - spentFor ts month g.category,
          status :=
            if spentFor ts month g.category > g.monthlyLimit then GoalStatus.exceeded
            else if (if g.monthlyLimit > 0 then
                spentFor ts month g.category / g.monthlyLimit * 100 else 0) ≥ 80 then
              GoalStatus.warning
            else GoalStatus.safe }) := by
  simp only [calculateBudgetProgress]
  have hm : (groupByCategory
        (ts.filter (fun t => t.type == "expense" && t.date.take 7 == month))
        "expense").map (fun c => (c.category, c.total)) =
      groupFold (ts.filter (fun t => t.type == "expense" && t.date.take 7 == month))
        "expense" := by
    simp only [groupByCategory, List.map_map]
    rw [show ((fun c : CategoryTotal => (c.category, c.total)) ∘
        (fun p : String × Rat => ({ category := p.1, total := p.2 } : CategoryTotal))) =
        id from rfl, List.map_id]
  rw [hm]
  apply List.map_congr_left
  intro g _
  have hsp : lookupCat
      (groupFold (ts.filter (fun t => t.type == "expense" && t.date.take 7 == month))
        "expense") g.category = spentFor ts month g.category := by
    rw [groupFold, lookupCat_groupFold_aux]
    have h0 : lookupCat [] g.category = 0 := rfl
    rw [h0, zero_add, catSum_monthExpenses]
  simp only [progressFor]
  rw [hsp]

/-- C8 witness: the amended totals facts at a concrete non-negative
input. -/
theorem c8_nonneg_totals_partition_witness :
    0 ≤ (computeTotals
        [{ id := "w", type := "income", date := "2024-07-01", periodTag := "",
           amount := 3, description := "", category := "Pay" }]).incomeTotal ∧
    0 ≤ (computeTotals
        [{ id := "w", type := "income", date := "2024-07-01", periodTag := "",
           amount := 3, description := "", category := "Pay" }]).expenseTotal ∧
    (computeTotals
        [{ id := "w", type := "income", date := "2024-07-01", periodTag := "",
           amount := 3, description := "", category := "Pay" }]).incomeTotal +
      (computeTotals
        [{ id := "w", type := "income", date := "2024-07-01", periodTag := "",
           amount := 3, description := "", category := "Pay" }]).expenseTotal =
      ([({ id := "w", type := "income", date := "2024-07-01", periodTag := "",
           amount := 3, description := "", category := "Pay" } : Transaction)].map
        Transaction.amount).sum := by
  apply c8_nonneg_totals_partition
  intro t ht
  simp only [List.mem_singleton] at ht
  subst ht
  norm_num

/-- Strings with different first characters differ. -/
theorem ne_of_firstChar {s t : String} (h : firstChar s ≠ firstChar t) : s ≠ t :=
  fun hh => h (congrArg firstChar hh)

/-- A message whose first character is none of the three tier-message
leads is not a tier message. -/
theorem isTierMsg_of_firstChar (s : String) (h1 : firstChar s ≠ some '⚠')
    (h2 : firstChar s ≠ some '💡') (h3 : firstChar s ≠ some '✅') :
    isTierMsg s = false := by
  have n1 : s ≠ overspendMsg :=
    ne_of_firstChar (by rw [show firstChar overspendMsg = some '⚠' from rfl]; exact h1)
  have n2 : s ≠ saveMoreMsg :=
    ne_of_firstChar (by rw [show firstChar saveMoreMsg = some '💡' from rfl]; exact h2)
  have n3 : s ≠ praiseMsg :=
    ne_of_firstChar (by rw [show firstChar praiseMsg = some '✅' from rfl]; exact h3)
  simp only [isTierMsg, Bool.or_eq_false_iff, beq_eq_false_iff_ne, ne_eq]
  exact ⟨⟨n1, n2⟩, n3⟩

/-- The housing warning is never a tier message. -/
theorem isTierMsg_housingMsg (p : Rat) : isTierMsg (housingMsg p) = false :=
  isTierMsg_of_firstChar _
    (by rw [show firstChar (housingMsg p) = some '🏠' from rfl]; decide)
    (by rw [show firstChar (housingMsg p) = some '🏠' from rfl]; decide)
    (by rw [show firstChar (housingMsg p) = some '🏠' from rfl]; decide)

/-- The food warning is never a tier message. -/
theorem isTierMsg_foodMsg (p : Rat) : isTierMsg (foodMsg p) = false :=
  isTierMsg_of_firstChar _
    (by rw [show firstChar (foodMsg p) = some '🍽' from rfl]; decide)
    (by rw [show firstChar (foodMsg p) = some '🍽' from rfl]; decide)
    (by rw [show firstChar (foodMsg p) = some '🍽' from rfl]; decide)

/-- The diversification warning is never a tier message. -/
theorem isTierMsg_diversifyMsg (c : String) (p : Rat) :
    isTierMsg (diversifyMsg c p) = false :=
  isTierMsg_of_firstChar _
    (by rw [show firstChar (diversifyMsg c p) = some '📊' from rfl]; decide)
    (by rw [show firstChar (diversifyMsg c p) = some '📊' from rfl]; decide)
    (by rw [show firstChar (diversifyMsg c p) = some '📊' from rfl]; decide)

/-- The savings-tier block passes the tier filter unchanged. -/
theorem filter_tier_savingsRateRecs (a : BudgetAnalysisBase) :
    (savingsRateRecs a).filter isTierMsg = savingsRateRecs a := by
  rw [savingsRateRecs]
  split_ifs <;> simp [List.filter, isTierMsg]

/-- The housing block contributes no tier message. -/
theorem filter_tier_housingRecs (a : BudgetAnalysisBase) :
    (housingRecs a).filter isTierMsg = [] := by
  rw [housingRecs]
  cases hf : a.categoryBreakdown.find? (fun c =>
      strContains (lowerStr c.category) "housing" ||
        strContains (lowerStr c.category) "rent") with
  | none => rfl
  | some c =>
    by_cases hp : c.percentage > 35
    · simp [hp, List.filter, isTierMsg_housingMsg]
    · simp [hp]

/-- The food block contributes no tier message. -/
theorem filter_tier_foodRecs (a : BudgetAnalysisBase) :
    (foodRecs a).filter isTierMsg = [] := by
  rw [foodRecs]
  cases hf : a.categoryBreakdown.find? (fun c =>
      strContains (lowerStr c.category) "food" ||
        strContains (lowerStr c.category) "groceries") with
  | none => rfl
  | some c =>
    by_cases hp : c.percentage > 15
    · simp [hp, List.filter, isTierMsg_foodMsg]
    · simp [hp]

/-- The diversification block contributes no tier message. -/
theorem filter_tier_diversifyRecs (a : BudgetAnalysisBase) :
    (diversifyRecs a).filter isTierMsg = [] := by
  rw [diversifyRecs]
  cases hf : a.categoryBreakdown.head? with
  | none => rfl
  | some c =>
    by_cases hp : c.percentage > 50
    · simp [hp, List.filter, isTierMsg_diversifyMsg]
    · simp [hp]

/-- C7: `generateRecommendations` emits exactly one savings-rate tier
message on `savingsRate < 0`, on `0 ≤ savingsRate < 10` and on
`savingsRate ≥ 20`, and none on `10 ≤ savingsRate < 20`; and with zero
transactions `performFullAnalysis` returns zeroed totals, an empty
breakdown, empty insights and alerts, and — since `savingsRate = 0`
falls in `[0, 10)` — exactly the save-more recommendation. -/
theorem c7_savings_tier_messages :
    (∀ a : BudgetAnalysisBase,
      (generateRecommendations a).filter isTierMsg =
        (if a.savingsRate < 0 then [overspendMsg]
         else if a.savingsRate < 10 then [saveMoreMsg]
         else if a.savingsRate ≥ 20 then [praiseMsg]
         else [])) ∧
    performFullAnalysis 0 [] =
      { totalIncome := 0, totalExpenses := 0, netSavings := 0, savingsRate := 0,
        categoryBreakdown := [], recommendations := [saveMoreMsg], insights := [],
        alerts := [] } := by
  constructor
  · intro a
    rw [generateRecommendations, List.filter_append, List.filter_append,
      List.filter_append, filter_tier_savingsRateRecs, filter_tier_housingRecs,
      filter_tier_foodRecs, filter_tier_diversifyRecs]
    simp [savingsRateRecs]
  · norm_num [performFullAnalysis, analyzeBudget, computeTotals, groupByCategory,
      groupFold, generateRecommendations, savingsRateRecs, housingRecs, foodRecs,
      diversifyRecs, generateInsights, generateAlerts]

/-- First character of the income insight line. -/
theorem firstChar_incomeMsg (a : BudgetAnalysisBase) :
    firstChar (incomeMsg a) = some '📈' := rfl

/-- First character of the net-savings insight line. -/
theorem firstChar_savingsMsg (a : BudgetAnalysisBase) :
    firstChar (savingsMsg a) = some '💰' := rfl

/-- First character of the deficit insight line. -/
theorem firstChar_deficitMsg (a : BudgetAnalysisBase) :
    firstChar (deficitMsg a) = some '⚠' := rfl

/-- First character of the top-categories insight line. -/
theorem firstChar_topCatsMsg (cs : List CategorySpending) :
    firstChar (topCatsMsg cs) = some '📊' := rfl

/-- C10: the top-spending-categories insight is emitted exactly when
`categoryBreakdown` is non-empty, and it is built from the first three
entries of the breakdown in the Analyzer's order (`slice(0, 3)`), not
from the three largest by amount. -/
theorem c10_top_categories_line (a : BudgetAnalysisBase) :
    (generateInsights a).filter (fun m => firstChar m == some '📊') =
      (if a.categoryBreakdown.isEmpty then []
       else [topCatsMsg (a.categoryBreakdown.take 3)]) := by
  rw [generateInsights, List.filter_append, List.filter_append]
  have h1 : ((if a.totalIncome > 0 then [incomeMsg a] else []).filter
      (fun m => firstChar m == some '📊')) = [] := by
    split_ifs <;>
      simp [List.filter, firstChar_incomeMsg,
        show ((some '📈' : Option Char) == some '📊') = false from by decide]
  have h2 : ((if a.netSavings > 0 then [savingsMsg a]
      else if a.netSavings < 0 then [deficitMsg a] else []).filter
      (fun m => firstChar m == some '📊')) = [] := by
    split_ifs <;>
      simp [List.filter, firstChar_savingsMsg, firstChar_deficitMsg,
        show ((some '💰' : Option Char) == some '📊') = false from by decide,
        show ((some '⚠' : Option Char) == some '📊') = false from by decide]
  rw [h1, h2]
  cases hcb : a.categoryBreakdown with
  | nil => simp
  | cons x xs =>
    simp [List.filter, firstChar_topCatsMsg]

/-- Rewriting only `description` and `id` leaves `computeTotals`
unchanged: the reducer reads only `type` and `amount`. -/
theorem computeTotals_map_desc_id (ts : List Transaction) (f g : Transaction → String) :
    computeTotals (ts.map (fun t => { t with description := f t, id := g t })) =
      computeTotals ts := by
  rw [computeTotals, computeTotals, List.foldl_map]
  congr 1

/-- Rewriting only `description` and `id` leaves the grouping fold
unchanged: it reads only `type`, `category` and `amount`. -/
theorem groupFold_map_desc_id (ts : List Transaction) (ty : String)
    (f g : Transaction → String) :
    groupFold (ts.map (fun t => { t with description := f t, id := g t })) ty =
      groupFold ts ty := by
  rw [groupFold, groupFold, List.foldl_map]
  congr 1

/-- Rewriting only `description` and `id` leaves `analyzeBudget`
unchanged. -/
theorem analyzeBudget_map_desc_id (b : Rat) (ts : List Transaction)
    (f g : Transaction → String) :
    analyzeBudget b (ts.map (fun t => { t with description := f t, id := g t })) =
      analyzeBudget b ts := by
  have hgb : groupByCategory
      (ts.map (fun t => { t with description := f t, id := g t })) "expense" =
      groupByCategory ts "expense" := by
    rw [groupByCategory, groupByCategory, groupFold_map_desc_id]
  simp only [analyzeBudget]
  rw [computeTotals_map_desc_id, hgb]

/-- Rewriting only `description` and `id` leaves `generateAlerts`
unchanged: the large-transaction scan reads only `type` and `amount`. -/
theorem generateAlerts_map_desc_id (a : BudgetAnalysisBase) (ts : List Transaction)
    (f g : Transaction → String) :
    generateAlerts a (ts.map (fun t => { t with description := f t, id := g t })) =
      generateAlerts a ts := by
  have hlen : ((ts.map (fun t => { t with description := f t, id := g t })).filter
      (fun t => t.type == "expense" && t.amount > a.totalExpenses * 0.2)).length =
      (ts.filter (fun t => t.type == "expense" && t.amount > a.totalExpenses * 0.2)).length := by
    rw [List.filter_map, List.length_map]
    rfl
  simp only [generateAlerts]
  rw [hlen]

/-- Rewriting only `description` and `id` leaves `performFullAnalysis`
unchanged. -/
theorem performFullAnalysis_map_desc_id (b : Rat) (ts : List Transaction)
    (f g : Transaction → String) :
    performFullAnalysis b
        (ts.map (fun t => { t with description := f t, id := g t })) =
      performFullAnalysis b ts := by
  simp only [performFullAnalysis]
  rw [analyzeBudget_map_desc_id, generateAlerts_map_desc_id]

/-- C5: the string produced by `prepareBudgetDataForAI` is unchanged
when every transaction's `description` and `id` are rewritten
arbitrarily while the other fields and the list length stay fixed — the
serialized summary is a projection of aggregate numbers, category
names/amounts/percentages and the transaction count, and never carries
`description` or `id` values. -/
theorem c5_privacy_projection (b : Rat) (ts : List Transaction)
    (f g : Transaction → String) :
    prepareBudgetDataForAI b
        (ts.map (fun t => { t with description := f t, id := g t })) =
      prepareBudgetDataForAI b ts := by
  simp only [prepareBudgetDataForAI]
  rw [performFullAnalysis_map_desc_id, List.length_map]

end BudgetApp
